import Mathlib

/-!
Verification of the money-movement core of the jade-smartbank backend.

Monetary values are Python `Decimal`s in the source; they are modelled here as
exact rationals (`ℚ`).  `Decimal.quantize(Decimal("0.01"))` with the default
`ROUND_HALF_EVEN` mode is modelled by `round2`.  The services compare and
mutate decimals with exact `+`, `-` and comparisons, which `ℚ` reproduces
exactly.  The one place the Python `Decimal` context (28 significant digits)
can diverge from `ℚ` is the long division inside the EMI formula; every
schedule theorem below is therefore proved for an arbitrary rounded EMI value,
so it is insensitive to that difference.
-/

namespace JadeBank

/-! ## Fixed-point (2 fractional digits) decimal arithmetic -/

/-- Round a rational to the nearest integer, ties to the even integer:
Python `Decimal`'s default `ROUND_HALF_EVEN` rounding mode. -/
def roundHalfEvenInt (x : ℚ) : ℤ :=
  let f := ⌊x⌋
  let frac := x - (f : ℚ)
  if frac < 1 / 2 then f
  else if 1 / 2 < frac then f + 1
  else if f % 2 = 0 then f else f + 1

/-- Model of `Decimal.quantize(Decimal("0.01"))`: round to 2 fractional digits,
ties to even. -/
def round2 (q : ℚ) : ℚ := (roundHalfEvenInt (100 * q) : ℚ) / 100

/-- Predicate: `q` is representable with exactly 2 fractional digits (a whole number of
paise, the system's money representation). -/
def IsPaise (q : ℚ) : Prop := ∃ n : ℤ, q = (n : ℚ) / 100

theorem isPaise_sub {a b : ℚ} (ha : IsPaise a) (hb : IsPaise b) :
    IsPaise (a - b) := by
  obtain ⟨m, rfl⟩ := ha
  obtain ⟨n, rfl⟩ := hb
  exact ⟨m - n, by push_cast; ring⟩

theorem isPaise_round2 (q : ℚ) : IsPaise (round2 q) :=
  ⟨roundHalfEvenInt (100 * q), rfl⟩

theorem roundHalfEvenInt_intCast (n : ℤ) : roundHalfEvenInt (n : ℚ) = n := by
  unfold roundHalfEvenInt
  rw [Int.floor_intCast]
  simp

theorem round2_eq_self {q : ℚ} (h : IsPaise q) : round2 q = q := by
  obtain ⟨n, rfl⟩ := h
  unfold round2
  have h100 : (100 : ℚ) * ((n : ℚ) / 100) = (n : ℚ) := by field_simp
  rw [h100, roundHalfEvenInt_intCast]

theorem round2_zero : round2 0 = 0 := by
  have := @round2_eq_self 0 ⟨0, by norm_num⟩
  simpa using this

/-! ## `calculate_emi` (src/app/utils/emi_calculator.py)

The source builds the amortization schedule in a loop over
`month in 1..tenure_months`; `scheduleGo` is that loop with the number of
remaining months as the recursion fuel (`k + 1` remaining months means the
current month is `tenure - k`, and `k = 0` marks the final month). -/

structure ScheduleRow where
  month : ℕ
  emi : ℚ
  principal : ℚ
  interest : ℚ
  balance : ℚ
deriving DecidableEq, Repr

def scheduleGo (emi monthly_rate : ℚ) (tenure : ℕ) : ℕ → ℚ → List ScheduleRow
  | 0, _ => []
  | k + 1, balance =>
    let month := tenure - k
    let interest_component := round2 (balance * monthly_rate)
    let principal_component :=
      if k = 0 then balance else round2 (emi - interest_component)
    let emi_adjusted :=
      if k = 0 then principal_component + interest_component else emi
    let new_balance := round2 (balance - principal_component)
    ⟨month, emi_adjusted, principal_component, interest_component, new_balance⟩
      :: scheduleGo emi monthly_rate tenure k new_balance

structure EMIResult where
  emi : ℚ
  total_interest : ℚ
  total_payable : ℚ
  breakdown : List ScheduleRow
deriving DecidableEq, Repr

def calculate_emi (principal annual_rate : ℚ) (tenure_months : ℕ) : EMIResult :=
  let monthly_rate := annual_rate / 12 / 100
  let emi0 : ℚ :=
    if monthly_rate = 0 then principal / (tenure_months : ℚ)
    else principal * monthly_rate * (1 + monthly_rate) ^ tenure_months /
      ((1 + monthly_rate) ^ tenure_months - 1)
  let emi := round2 emi0
  let breakdown := scheduleGo emi monthly_rate tenure_months tenure_months principal
  let total_payable := (breakdown.map fun r => r.emi).sum
  ⟨emi, total_payable - principal, total_payable, breakdown⟩

theorem scheduleGo_sum_principal (emi rate : ℚ) (tenure : ℕ) :
    ∀ (k : ℕ) (b : ℚ), IsPaise b →
      ((scheduleGo emi rate tenure (k + 1) b).map fun r => r.principal).sum = b := by
  intro k
  induction k with
  | zero =>
    intro b _
    simp [scheduleGo]
  | succ k ih =>
    intro b hb
    have hpc : IsPaise (round2 (emi - round2 (b * rate))) := isPaise_round2 _
    have hb' : IsPaise (b - round2 (emi - round2 (b * rate))) := isPaise_sub hb hpc
    rw [scheduleGo]
    simp only [Nat.succ_ne_zero, if_false, List.map_cons, List.sum_cons]
    rw [round2_eq_self hb', ih _ hb']
    ring

theorem scheduleGo_ne_nil (emi rate : ℚ) (tenure k : ℕ) (b : ℚ) :
    scheduleGo emi rate tenure (k + 1) b ≠ [] := by
  simp [scheduleGo]

theorem getLast?_cons_of_ne_nil {α : Type} (a : α) {l : List α} (h : l ≠ []) :
    (a :: l).getLast? = l.getLast? := by
  cases l with
  | nil => exact absurd rfl h
  | cons b l => exact List.getLast?_cons_cons

theorem scheduleGo_last (emi rate : ℚ) (tenure : ℕ) :
    ∀ (k : ℕ) (b : ℚ), ∃ r : ScheduleRow,
      (scheduleGo emi rate tenure (k + 1) b).getLast? = some r ∧
        r.balance = 0 ∧ r.month = tenure := by
  intro k
  induction k with
  | zero =>
    intro b
    refine ⟨⟨tenure, b + round2 (b * rate), b, round2 (b * rate), round2 (b - b)⟩,
      ?_, ?_, rfl⟩
    · simp [scheduleGo]
    · show round2 (b - b) = 0
      rw [sub_self, round2_zero]
  | succ k ih =>
    intro b
    rw [scheduleGo]
    rw [getLast?_cons_of_ne_nil _ (scheduleGo_ne_nil emi rate tenure k _)]
    exact ih _

/-- C1 (amended): for every call of `calculate_emi` with a positive tenure and
a principal representable with 2 fractional digits (the system's money
representation), the `principal` components of the returned schedule sum to
the principal exactly, and the final row (whose `month` is the tenure) has
balance exactly `0`.  Without the 2-fractional-digit restriction the sum can
fall short of the principal (see the counterexample below). -/
theorem calculate_emi_amortization_complete (principal annual_rate : ℚ)
    (tenure_months : ℕ) (htenure : 0 < tenure_months) (hpaise : IsPaise principal) :
    (((calculate_emi principal annual_rate tenure_months).breakdown.map
        fun r => r.principal).sum = principal)
    ∧ ∃ r : ScheduleRow,
        (calculate_emi principal annual_rate tenure_months).breakdown.getLast? = some r
        ∧ r.month = tenure_months ∧ r.balance = 0 := by
  obtain ⟨k, rfl⟩ : ∃ k, tenure_months = k + 1 :=
    ⟨tenure_months - 1, (Nat.succ_pred_eq_of_pos htenure).symm⟩
  simp only [calculate_emi]
  constructor
  · exact scheduleGo_sum_principal _ _ _ _ _ hpaise
  · obtain ⟨r, hr, hb, hm⟩ := scheduleGo_last _ _ (k + 1) k principal
    exact ⟨r, hr, hm, hb⟩

/-- C1, as stated over every input, is false: for `principal = 0.005`
(not representable with 2 fractional digits), zero rate and tenure 2, the
schedule's `principal` components sum to `0`, not to the principal. -/
theorem calculate_emi_sum_counterexample :
    (((calculate_emi (1 / 200) 0 2).breakdown.map fun r => r.principal).sum)
      ≠ 1 / 200 := by
  norm_num [calculate_emi, scheduleGo, round2, roundHalfEvenInt]

/-- C1 witness: the amended amortization-completeness theorem applied at
`principal = 1000`, `annual_rate = 12`, `tenure_months = 2`. -/
theorem calculate_emi_amortization_complete_witness :
    (0 < 2)
    ∧ IsPaise 1000
    ∧ ((((calculate_emi 1000 12 2).breakdown.map fun r => r.principal).sum = 1000)
      ∧ ∃ r : ScheduleRow,
          (calculate_emi 1000 12 2).breakdown.getLast? = some r
          ∧ r.month = 2 ∧ r.balance = 0) :=
  ⟨by norm_num, ⟨100000, by norm_num⟩,
    calculate_emi_amortization_complete 1000 12 2 (by norm_num) ⟨100000, by norm_num⟩⟩

/-! ## Ledger data model (src/app/models, as the services read and write it)

The services address rows through the ORM; here each operation receives the
rows its queries fetch (the "found or unauthorized" branches are the caller's
concern) and returns the session state it commits together with `none`, or
the state as it stood when the `ValueError` was raised together with the
error message. -/

structure Account where
  id : ℕ
  user_id : ℕ
  status : String
  balance : ℚ
  available_balance : ℚ
  minimum_balance : Option ℚ
  daily_transfer_limit : ℚ
deriving DecidableEq, Repr

structure DailyTransferTracking where
  account_id : ℕ
  total_transferred : ℚ
  transfer_count : ℕ
deriving DecidableEq, Repr

structure Transaction where
  transaction_type : String
  from_account_id : Option ℕ
  to_account_id : Option ℕ
  amount : ℚ
  status : String
  from_balance_before : Option ℚ
  from_balance_after : Option ℚ
  to_balance_before : Option ℚ
  to_balance_after : Option ℚ
deriving DecidableEq, Repr

/-! ## TransactionService (src/app/services/transaction_service.py) -/

/-- The session state `transfer_money` touches: the two fetched accounts, the
day's `DailyTransferTracking` row for the source account (if one exists), and
the transaction table. -/
structure TransferState where
  from_account : Account
  to_account : Account
  daily_tracking : Option DailyTransferTracking
  transactions : List Transaction
deriving DecidableEq, Repr

/-- The code after the daily-limit block of `transfer_money` (lines 120-149):
balance mutations, transaction record, commit. -/
def transferCommit (s : TransferState) (amount min_balance : ℚ)
    (daily_tracking : DailyTransferTracking) : TransferState × Option String :=
  let from_balance_before := s.from_account.balance
  let to_balance_before := s.to_account.balance
  let from_account := { s.from_account with
    balance := s.from_account.balance - amount,
    available_balance := s.from_account.balance - amount - min_balance }
  let to_account := { s.to_account with
    balance := s.to_account.balance + amount,
    available_balance :=
      s.to_account.balance + amount - s.to_account.minimum_balance.getD 0 }
  let transaction : Transaction :=
    { transaction_type := "transfer",
      from_account_id := some s.from_account.id,
      to_account_id := some s.to_account.id,
      amount := amount,
      status := "completed",
      from_balance_before := some from_balance_before,
      from_balance_after := some from_account.balance,
      to_balance_before := some to_balance_before,
      to_balance_after := some to_account.balance }
  ({ from_account := from_account, to_account := to_account,
     daily_tracking := some daily_tracking,
     transactions := transaction :: s.transactions }, none)

/-- Model of `TransactionService.transfer_money` (lines 27-167). -/
def transfer_money (s : TransferState) (amount : ℚ) : TransferState × Option String :=
  if s.from_account.status ≠ "active" then (s, some "Source account is not active")
  else if s.to_account.status ≠ "active" then
    (s, some "Destination account is not active")
  else if s.from_account.id = s.to_account.id then
    (s, some "Cannot transfer to the same account")
  else if amount ≤ 0 then (s, some "Transfer amount must be positive")
  else
    let min_balance := s.from_account.minimum_balance.getD 0
    let available := s.from_account.balance - min_balance
    if available < amount then (s, some "Insufficient balance")
    else
      match s.daily_tracking with
      | some daily_tracking =>
        if s.from_account.daily_transfer_limit - daily_tracking.total_transferred
            < amount then
          (s, some "Daily transfer limit exceeded")
        else
          transferCommit s amount min_balance
            { daily_tracking with
              total_transferred := daily_tracking.total_transferred + amount,
              transfer_count := daily_tracking.transfer_count + 1 }
      | none =>
        if s.from_account.daily_transfer_limit < amount then
          (s, some "Amount exceeds daily limit")
        else
          transferCommit s amount min_balance
            ⟨s.from_account.id, amount, 1⟩

/-- The session state of `deposit_money` and `withdraw_money`: the one fetched
account and the transaction table. -/
structure AccountOpState where
  account : Account
  transactions : List Transaction
deriving DecidableEq, Repr

/-- Model of `TransactionService.deposit_money` (lines 169-246). -/
def deposit_money (s : AccountOpState) (amount : ℚ) : AccountOpState × Option String :=
  if s.account.status ≠ "active" then (s, some "Account is not active")
  else if amount ≤ 0 then (s, some "Deposit amount must be positive")
  else
    let balance_before := s.account.balance
    let account := { s.account with
      balance := s.account.balance + amount,
      available_balance :=
        s.account.balance + amount - s.account.minimum_balance.getD 0 }
    let transaction : Transaction :=
      { transaction_type := "deposit",
        from_account_id := none,
        to_account_id := some s.account.id,
        amount := amount,
        status := "completed",
        from_balance_before := none,
        from_balance_after := none,
        to_balance_before := some balance_before,
        to_balance_after := some account.balance }
    ({ account := account, transactions := transaction :: s.transactions }, none)

/-- Model of `TransactionService.withdraw_money` (lines 248-332). -/
def withdraw_money (s : AccountOpState) (amount : ℚ) : AccountOpState × Option String :=
  if s.account.status ≠ "active" then (s, some "Account is not active")
  else if amount ≤ 0 then (s, some "Withdrawal amount must be positive")
  else
    let min_balance := s.account.minimum_balance.getD 0
    let available := s.account.balance - min_balance
    if available < amount then (s, some "Insufficient balance")
    else
      let balance_before := s.account.balance
      let account := { s.account with
        balance := s.account.balance - amount,
        available_balance := s.account.balance - amount - min_balance }
      let transaction : Transaction :=
        { transaction_type := "withdrawal",
          from_account_id := some s.account.id,
          to_account_id := none,
          amount := amount,
          status := "completed",
          from_balance_before := some balance_before,
          from_balance_after := some account.balance,
          to_balance_before := none,
          to_balance_after := none }
      ({ account := account, transactions := transaction :: s.transactions }, none)

/-- The day's transferred total as the limit check reads it: the existing
row's `total_transferred`, or `0` when today has no row yet. -/
def trackedTotal (t : Option DailyTransferTracking) : ℚ :=
  match t with
  | some dt => dt.total_transferred
  | none => 0

/-- The day's transfer count: the existing row's `transfer_count`, or `0`
when today has no row yet. -/
def trackedCount (t : Option DailyTransferTracking) : ℕ :=
  match t with
  | some dt => dt.transfer_count
  | none => 0

/-- C2: every successful `transfer_money` moves exactly `amount` from the
source balance to the destination balance, so the sum of the two balances is
conserved, and the created `transfer` transaction records both sides'
before/after balances. -/
theorem transfer_money_conservation (s : TransferState) (amount : ℚ)
    (h : (transfer_money s amount).2 = none) :
    (transfer_money s amount).1.from_account.balance
        + (transfer_money s amount).1.to_account.balance
      = s.from_account.balance + s.to_account.balance
    ∧ (transfer_money s amount).1.from_account.balance
        = s.from_account.balance - amount
    ∧ (transfer_money s amount).1.to_account.balance
        = s.to_account.balance + amount
    ∧ ∃ tx : Transaction,
        (transfer_money s amount).1.transactions = tx :: s.transactions
        ∧ tx.transaction_type = "transfer"
        ∧ tx.amount = amount
        ∧ tx.from_balance_before = some s.from_account.balance
        ∧ tx.from_balance_after = some (s.from_account.balance - amount)
        ∧ tx.to_balance_before = some s.to_account.balance
        ∧ tx.to_balance_after = some (s.to_account.balance + amount) := by
  obtain ⟨fa, ta, dt, txs⟩ := s
  cases dt <;>
    (dsimp only [transfer_money, transferCommit] at h ⊢;
      split_ifs at h ⊢ <;> simp_all)

/-- C2 witness: the conservation theorem applied to a successful transfer of
`1000` from an active account with balance `50000` (minimum balance `1000`)
to an active account with balance `25000`. -/
theorem transfer_money_conservation_witness :
    ((transfer_money ⟨⟨1, 10, "active", 50000, 49000, some 1000, 100000⟩,
        ⟨2, 20, "active", 25000, 25000, none, 100000⟩, none, []⟩ 1000).2 = none)
    ∧ ((transfer_money ⟨⟨1, 10, "active", 50000, 49000, some 1000, 100000⟩,
          ⟨2, 20, "active", 25000, 25000, none, 100000⟩, none, []⟩ 1000).1.from_account.balance
        + (transfer_money ⟨⟨1, 10, "active", 50000, 49000, some 1000, 100000⟩,
            ⟨2, 20, "active", 25000, 25000, none, 100000⟩, none, []⟩ 1000).1.to_account.balance
        = (50000 : ℚ) + 25000
      ∧ (transfer_money ⟨⟨1, 10, "active", 50000, 49000, some 1000, 100000⟩,
          ⟨2, 20, "active", 25000, 25000, none, 100000⟩, none, []⟩ 1000).1.from_account.balance
          = (50000 : ℚ) - 1000
      ∧ (transfer_money ⟨⟨1, 10, "active", 50000, 49000, some 1000, 100000⟩,
          ⟨2, 20, "active", 25000, 25000, none, 100000⟩, none, []⟩ 1000).1.to_account.balance
          = (25000 : ℚ) + 1000
      ∧ ∃ tx : Transaction,
          (transfer_money ⟨⟨1, 10, "active", 50000, 49000, some 1000, 100000⟩,
            ⟨2, 20, "active", 25000, 25000, none, 100000⟩, none, []⟩ 1000).1.transactions
            = tx :: []
          ∧ tx.transaction_type = "transfer"
          ∧ tx.amount = 1000
          ∧ tx.from_balance_before = some 50000
          ∧ tx.from_balance_after = some ((50000 : ℚ) - 1000)
          ∧ tx.to_balance_before = some 25000
          ∧ tx.to_balance_after = some ((25000 : ℚ) + 1000)) :=
  ⟨by norm_num [transfer_money, transferCommit],
    transfer_money_conservation _ 1000 (by norm_num [transfer_money, transferCommit])⟩

/-- C4: for an active account and a positive amount, `withdraw_money`
succeeds if and only if `amount ≤ balance - minimum_balance` (so a withdrawal
leaving the balance exactly at the minimum succeeds); on success the balance
drops by exactly the amount, and when the floor would be breached the call
fails with the insufficient-balance error and leaves the state unchanged. -/
theorem withdraw_money_minimum_balance_boundary (s : AccountOpState) (amount : ℚ)
    (hactive : s.account.status = "active") (hpos : 0 < amount) :
    ((withdraw_money s amount).2 = none ↔
        amount ≤ s.account.balance - s.account.minimum_balance.getD 0)
    ∧ ((withdraw_money s amount).2 = none →
        (withdraw_money s amount).1.account.balance = s.account.balance - amount)
    ∧ (s.account.balance - s.account.minimum_balance.getD 0 < amount →
        withdraw_money s amount = (s, some "Insufficient balance")) := by
  obtain ⟨a, txs⟩ := s
  dsimp only [withdraw_money]
  split_ifs with h1 h2 h3
  · exact absurd hactive h1
  · exact absurd h2 (not_le.mpr hpos)
  · refine ⟨by simp [h3.not_le], ?_, fun _ => rfl⟩
    intro h
    simp at h
  · refine ⟨by simp [not_lt.mp h3], fun _ => rfl, ?_⟩
    intro hlt
    exact absurd hlt h3

/-- C4 witness: the boundary theorem applied to an active account with
balance `5000`, minimum balance `1000`, withdrawing `4000` — the amount that
leaves the balance exactly at the minimum. -/
theorem withdraw_money_minimum_balance_boundary_witness :
    (⟨⟨1, 10, "active", 5000, 4000, some 1000, 100000⟩,
        ([] : List Transaction)⟩ : AccountOpState).account.status = "active"
    ∧ (0 : ℚ) < 4000
    ∧ (((withdraw_money ⟨⟨1, 10, "active", 5000, 4000, some 1000, 100000⟩, []⟩ 4000).2
          = none ↔
        (4000 : ℚ) ≤ 5000 - (some (1000 : ℚ)).getD 0)
      ∧ ((withdraw_money ⟨⟨1, 10, "active", 5000, 4000, some 1000, 100000⟩, []⟩ 4000).2
            = none →
          (withdraw_money ⟨⟨1, 10, "active", 5000, 4000, some 1000, 100000⟩, []⟩
              4000).1.account.balance = (5000 : ℚ) - 4000)
      ∧ ((5000 : ℚ) - (some (1000 : ℚ)).getD 0 < 4000 →
          withdraw_money ⟨⟨1, 10, "active", 5000, 4000, some 1000, 100000⟩, []⟩ 4000
            = (⟨⟨1, 10, "active", 5000, 4000, some 1000, 100000⟩, []⟩,
                some "Insufficient balance"))) :=
  ⟨rfl, by norm_num,
    withdraw_money_minimum_balance_boundary _ 4000 rfl (by norm_num)⟩

/-- C3: for a transfer that passes the account-status, self-transfer, amount
and balance checks, against a reachable daily-tracking row (total between `0`
and the account's limit, or no row yet): the transfer succeeds iff the day's
total plus the amount stays within `daily_transfer_limit`; on success the
aggregate's total grows by exactly the amount and its count by one; when the
total would exceed the limit the call fails with one of the two daily-limit
errors; the resulting tracking row still satisfies `total ≤ limit`; and an
account with daily limit `0` rejects every transfer. -/
theorem transfer_money_daily_limit (s : TransferState) (amount : ℚ)
    (hfrom : s.from_account.status = "active")
    (hto : s.to_account.status = "active")
    (hne : s.from_account.id ≠ s.to_account.id)
    (hpos : 0 < amount)
    (hbal : amount ≤ s.from_account.balance - s.from_account.minimum_balance.getD 0)
    (htot0 : 0 ≤ trackedTotal s.daily_tracking)
    (htot1 : trackedTotal s.daily_tracking ≤ s.from_account.daily_transfer_limit) :
    ((transfer_money s amount).2 = none ↔
        trackedTotal s.daily_tracking + amount ≤ s.from_account.daily_transfer_limit)
    ∧ ((transfer_money s amount).2 = none →
        trackedTotal (transfer_money s amount).1.daily_tracking
            = trackedTotal s.daily_tracking + amount
          ∧ trackedCount (transfer_money s amount).1.daily_tracking
            = trackedCount s.daily_tracking + 1)
    ∧ (s.from_account.daily_transfer_limit
          < trackedTotal s.daily_tracking + amount →
        (transfer_money s amount).2 = some "Daily transfer limit exceeded"
        ∨ (transfer_money s amount).2 = some "Amount exceeds daily limit")
    ∧ trackedTotal (transfer_money s amount).1.daily_tracking
        ≤ (transfer_money s amount).1.from_account.daily_transfer_limit
    ∧ (s.from_account.daily_transfer_limit = 0 →
        (transfer_money s amount).2 ≠ none) := by
  obtain ⟨fa, ta, dt, txs⟩ := s
  dsimp only at hfrom hto hne hbal htot0 htot1
  cases dt with
  | none =>
    dsimp only [transfer_money, transferCommit]
    split_ifs with h1 h2 h3 h4 h5
    · exact absurd hfrom h1
    · exact absurd hto h2
    · exact absurd h3 (not_le.mpr hpos)
    · exact absurd h4 (not_lt.mpr hbal)
    · refine ⟨?_, ?_, ?_, ?_, ?_⟩
      · simp [trackedTotal, h5.not_le]
      · intro h
        simp at h
      · intro _
        exact Or.inr rfl
      · simpa [trackedTotal] using htot1
      · intro _
        simp
    · have hle : amount ≤ fa.daily_transfer_limit := not_lt.mp h5
      refine ⟨?_, ?_, ?_, ?_, ?_⟩
      · simp [trackedTotal, hle]
      · intro _
        simp [trackedTotal, trackedCount]
      · intro hlt
        simp only [trackedTotal, zero_add] at hlt
        exact absurd hlt (not_lt.mpr hle)
      · simpa [trackedTotal] using hle
      · intro h0
        exfalso
        rw [h0] at hle
        linarith
  | some dt0 =>
    dsimp only [transfer_money, transferCommit]
    split_ifs with h1 h2 h3 h4 h5
    · exact absurd hfrom h1
    · exact absurd hto h2
    · exact absurd h3 (not_le.mpr hpos)
    · exact absurd h4 (not_lt.mpr hbal)
    · have hgt : ¬ (dt0.total_transferred + amount ≤ fa.daily_transfer_limit) := by
        intro hle
        exact absurd h5 (not_lt.mpr (by linarith))
      refine ⟨?_, ?_, ?_, ?_, ?_⟩
      · simp [trackedTotal, hgt]
      · intro h
        simp at h
      · intro _
        exact Or.inl rfl
      · simpa [trackedTotal] using htot1
      · intro _
        simp
    · have hle : dt0.total_transferred + amount ≤ fa.daily_transfer_limit := by
        have := not_lt.mp h5
        linarith
      refine ⟨?_, ?_, ?_, ?_, ?_⟩
      · simp [trackedTotal, hle]
      · intro _
        simp [trackedTotal, trackedCount]
      · intro hlt
        simp only [trackedTotal] at hlt
        exact absurd hlt (not_lt.mpr hle)
      · simpa [trackedTotal] using hle
      · intro h0
        exfalso
        rw [h0] at hle
        have h00 : (0 : ℚ) ≤ dt0.total_transferred := by
          simpa [trackedTotal] using htot0
        linarith

/-- Fixture: an active source account, balance `50000`, minimum balance
`1000`, daily transfer limit `100000`. -/
def fixtureFrom : Account := ⟨1, 10, "active", 50000, 49000, some 1000, 100000⟩

/-- Fixture: an active destination account, balance `25000`. -/
def fixtureTo : Account := ⟨2, 20, "active", 25000, 25000, none, 100000⟩

/-- Fixture: today's tracking row for the source account, `30000` already
transferred over `3` transfers. -/
def fixtureTracking : DailyTransferTracking := ⟨1, 30000, 3⟩

/-- Fixture: transfer session state with an existing tracking row. -/
def fixtureTransfer : TransferState := ⟨fixtureFrom, fixtureTo, some fixtureTracking, []⟩

/-- C3 witness: the daily-limit theorem applied to a transfer of `1000` on a
day with `30000` of `100000` already used. -/
theorem transfer_money_daily_limit_witness :
    fixtureTransfer.from_account.status = "active"
    ∧ fixtureTransfer.to_account.status = "active"
    ∧ fixtureTransfer.from_account.id ≠ fixtureTransfer.to_account.id
    ∧ (0 : ℚ) < 1000
    ∧ (1000 : ℚ) ≤ fixtureTransfer.from_account.balance
        - fixtureTransfer.from_account.minimum_balance.getD 0
    ∧ 0 ≤ trackedTotal fixtureTransfer.daily_tracking
    ∧ trackedTotal fixtureTransfer.daily_tracking
        ≤ fixtureTransfer.from_account.daily_transfer_limit
    ∧ (((transfer_money fixtureTransfer 1000).2 = none ↔
          trackedTotal fixtureTransfer.daily_tracking + 1000
            ≤ fixtureTransfer.from_account.daily_transfer_limit)
      ∧ ((transfer_money fixtureTransfer 1000).2 = none →
          trackedTotal (transfer_money fixtureTransfer 1000).1.daily_tracking
              = trackedTotal fixtureTransfer.daily_tracking + 1000
            ∧ trackedCount (transfer_money fixtureTransfer 1000).1.daily_tracking
              = trackedCount fixtureTransfer.daily_tracking + 1)
      ∧ (fixtureTransfer.from_account.daily_transfer_limit
            < trackedTotal fixtureTransfer.daily_tracking + 1000 →
          (transfer_money fixtureTransfer 1000).2 = some "Daily transfer limit exceeded"
          ∨ (transfer_money fixtureTransfer 1000).2 = some "Amount exceeds daily limit")
      ∧ trackedTotal (transfer_money fixtureTransfer 1000).1.daily_tracking
          ≤ (transfer_money fixtureTransfer 1000).1.from_account.daily_transfer_limit
      ∧ (fixtureTransfer.from_account.daily_transfer_limit = 0 →
          (transfer_money fixtureTransfer 1000).2 ≠ none)) :=
  ⟨rfl, rfl, by norm_num [fixtureTransfer, fixtureFrom, fixtureTo],
    by norm_num,
    by norm_num [fixtureTransfer, fixtureFrom],
    by norm_num [fixtureTransfer, fixtureTracking, trackedTotal],
    by norm_num [fixtureTransfer, fixtureTracking, fixtureFrom, trackedTotal],
    transfer_money_daily_limit fixtureTransfer 1000 rfl rfl
      (by norm_num [fixtureTransfer, fixtureFrom, fixtureTo])
      (by norm_num)
      (by norm_num [fixtureTransfer, fixtureFrom])
      (by norm_num [fixtureTransfer, fixtureTracking, trackedTotal])
      (by norm_num [fixtureTransfer, fixtureTracking, fixtureFrom, trackedTotal])⟩

/-! ## LoanService (src/app/services/loan_service.py)

The loan row as the service reads and writes it (`approved_by/at`,
timestamps and the disbursement-account reference are carried by the state
records below where an operation touches them). -/

structure Loan where
  id : ℕ
  user_id : ℕ
  loan_type : String
  principal_amount : ℚ
  interest_rate : ℚ
  tenure_months : ℕ
  emi_amount : ℚ
  total_interest : ℚ
  total_payable : ℚ
  outstanding_amount : ℚ
  emis_paid : ℕ
  status : String
deriving DecidableEq, Repr

structure LoanEMIPayment where
  loan_id : ℕ
  emi_number : ℕ
  amount_paid : ℚ
  status : String
deriving DecidableEq, Repr

/-- The session state `pay_emi` touches: the fetched loan, the fetched
payment account, the loan's EMI-payment rows and the transaction table. -/
structure LoanPayState where
  loan : Loan
  account : Account
  payments : List LoanEMIPayment
  transactions : List Transaction
deriving DecidableEq, Repr

/-- The `existing_payment` query of `pay_emi` (lines 371-380): is there a
`paid` row for this `(loan_id, emi_number)`? -/
def hasPaidEMI (payments : List LoanEMIPayment) (loan_id emi_number : ℕ) : Bool :=
  payments.any fun p =>
    p.loan_id == loan_id && p.emi_number == emi_number && p.status == "paid"

/-- Model of `LoanService.pay_emi` (lines 324-461). -/
def pay_emi (s : LoanPayState) (emi_number : ℕ) (amount : ℚ) :
    LoanPayState × Option String :=
  if s.loan.status ≠ "active" then (s, some "Cannot pay EMI for non-active loan")
  else if s.account.status ≠ "active" then (s, some "Payment account is not active")
  else if emi_number < 1 ∨ s.loan.tenure_months < emi_number then
    (s, some "Invalid EMI number")
  else if hasPaidEMI s.payments s.loan.id emi_number then (s, some "EMI already paid")
  else if emi_number ≠ s.loan.tenure_months
      ∧ (1 : ℚ) < |amount - s.loan.emi_amount| then
    (s, some "Invalid payment amount")
  else
    let min_balance := s.account.minimum_balance.getD 0
    let available := s.account.balance - min_balance
    if available < amount then (s, some "Insufficient balance")
    else
      let balance_before := s.account.balance
      let account := { s.account with
        balance := s.account.balance - amount,
        available_balance := s.account.balance - amount - min_balance }
      let transaction : Transaction :=
        { transaction_type := "loan_payment",
          from_account_id := some s.account.id,
          to_account_id := none,
          amount := amount,
          status := "completed",
          from_balance_before := some balance_before,
          from_balance_after := some account.balance,
          to_balance_before := none,
          to_balance_after := none }
      let emi_payment : LoanEMIPayment :=
        { loan_id := s.loan.id, emi_number := emi_number,
          amount_paid := amount, status := "paid" }
      let emis_paid := s.loan.emis_paid + 1
      let loan := { s.loan with
        outstanding_amount := s.loan.outstanding_amount - amount,
        emis_paid := emis_paid,
        status := if emis_paid = s.loan.tenure_months then "closed" else s.loan.status }
      ({ loan := loan, account := account,
         payments := emi_payment :: s.payments,
         transactions := transaction :: s.transactions }, none)

/-- The session state of `approve_loan` and `reject_loan`: the fetched loan,
the disbursement account when the loan names one and it exists, and the
transaction table. -/
structure LoanReviewState where
  loan : Loan
  disbursement_account : Option Account
  transactions : List Transaction
deriving DecidableEq, Repr

/-- Model of `LoanService.approve_loan` (lines 463-540). -/
def approve_loan (s : LoanReviewState) : LoanReviewState × Option String :=
  if s.loan.status ≠ "pending" then (s, some "Loan is already processed")
  else
    let loan := { s.loan with status := "active" }
    match s.disbursement_account with
    | some acct =>
      let balance_before := acct.balance
      let account := { acct with
        balance := acct.balance + s.loan.principal_amount,
        available_balance :=
          acct.balance + s.loan.principal_amount - acct.minimum_balance.getD 0 }
      let transaction : Transaction :=
        { transaction_type := "loan_disbursement",
          from_account_id := none,
          to_account_id := some acct.id,
          amount := s.loan.principal_amount,
          status := "completed",
          from_balance_before := none,
          from_balance_after := none,
          to_balance_before := some balance_before,
          to_balance_after := some account.balance }
      ({ loan := loan, disbursement_account := some account,
         transactions := transaction :: s.transactions }, none)
    | none =>
      ({ loan := loan, disbursement_account := none,
         transactions := s.transactions }, none)

/-- Model of `LoanService.reject_loan` (lines 542-591).  The rejection reason is only
audit-logged by the source; no emptiness check is made there (the route
performs it). -/
def reject_loan (s : LoanReviewState) (rejection_reason : String) :
    LoanReviewState × Option String :=
  if s.loan.status ≠ "pending" then (s, some "Loan is already processed")
  else ({ s with loan := { s.loan with status := "rejected" } }, none)

/-- At most one `paid` EMI-payment row per `(loan_id, emi_number)`. -/
def NoDoublePaid (ps : List LoanEMIPayment) : Prop :=
  ps.Pairwise fun p q =>
    p.status = "paid" → q.status = "paid" → p.loan_id = q.loan_id →
      p.emi_number ≠ q.emi_number

/-- C6: `approve_loan` succeeds exactly on a `pending` loan and makes it
`active`; `reject_loan` succeeds exactly on `pending` and makes it
`rejected`; a successful `pay_emi` requires an `active` loan and leaves it
`closed` exactly when `emis_paid` reaches `tenure_months`, `active`
otherwise; every failing call leaves its state (so in particular the status)
unchanged.  Hence `rejected` and `closed` admit no outgoing edge. -/
theorem loan_status_transitions (s : LoanReviewState) (sp : LoanPayState)
    (reason : String) (k : ℕ) (amount : ℚ) :
    ((approve_loan s).2 = none ↔ s.loan.status = "pending")
    ∧ ((approve_loan s).2 = none → (approve_loan s).1.loan.status = "active")
    ∧ ((approve_loan s).2 ≠ none → (approve_loan s).1 = s)
    ∧ ((reject_loan s reason).2 = none ↔ s.loan.status = "pending")
    ∧ ((reject_loan s reason).2 = none →
        (reject_loan s reason).1.loan.status = "rejected")
    ∧ ((reject_loan s reason).2 ≠ none → (reject_loan s reason).1 = s)
    ∧ ((pay_emi sp k amount).2 = none →
        sp.loan.status = "active"
        ∧ (pay_emi sp k amount).1.loan.status
            = (if sp.loan.emis_paid + 1 = sp.loan.tenure_months then "closed"
              else "active"))
    ∧ ((pay_emi sp k amount).2 ≠ none → (pay_emi sp k amount).1 = sp) := by
  obtain ⟨l, da, txs⟩ := s
  obtain ⟨pl, pa, pps, ptxs⟩ := sp
  refine ⟨?_, ?_, ?_, ?_, ?_, ?_, ?_, ?_⟩
  · cases da <;> by_cases h : l.status = "pending" <;> simp [approve_loan, h]
  · cases da <;> by_cases h : l.status = "pending" <;> simp [approve_loan, h]
  · cases da <;> by_cases h : l.status = "pending" <;> simp [approve_loan, h]
  · by_cases h : l.status = "pending" <;> simp [reject_loan, h]
  · by_cases h : l.status = "pending" <;> simp [reject_loan, h]
  · by_cases h : l.status = "pending" <;> simp [reject_loan, h]
  · dsimp only [pay_emi]
    split_ifs <;>
      first
      | (intro h; exact Option.noConfusion h)
      | (intro _; constructor <;> simp_all)
  · dsimp only [pay_emi]
    split_ifs <;>
      first
      | (intro _; rfl)
      | (intro h; exact absurd rfl h)

/-- C8: every failing call of a ledger-mutating operation — `transfer_money`,
`deposit_money`, `withdraw_money`, `pay_emi` — leaves its session state
(account balances, daily aggregate, loan fields, transaction and payment
records) exactly as it was: each operation either succeeds or changes
nothing. -/
theorem ledger_atomic_on_error (st : TransferState) (sd sw : AccountOpState)
    (sp : LoanPayState) (k : ℕ) (a1 a2 a3 a4 : ℚ) :
    ((transfer_money st a1).1 = st ∨ (transfer_money st a1).2 = none)
    ∧ ((deposit_money sd a2).1 = sd ∨ (deposit_money sd a2).2 = none)
    ∧ ((withdraw_money sw a3).1 = sw ∨ (withdraw_money sw a3).2 = none)
    ∧ ((pay_emi sp k a4).1 = sp ∨ (pay_emi sp k a4).2 = none) := by
  refine ⟨?_, ?_, ?_, ?_⟩
  · obtain ⟨fa, ta, dt, txs⟩ := st
    cases dt <;>
      (dsimp only [transfer_money, transferCommit];
        split_ifs <;> first | exact Or.inl rfl | exact Or.inr rfl)
  · obtain ⟨a, txs⟩ := sd
    dsimp only [deposit_money]
    split_ifs <;> first | exact Or.inl rfl | exact Or.inr rfl
  · obtain ⟨a, txs⟩ := sw
    dsimp only [withdraw_money]
    split_ifs <;> first | exact Or.inl rfl | exact Or.inr rfl
  · obtain ⟨pl, pa, pps, ptxs⟩ := sp
    dsimp only [pay_emi]
    split_ifs <;> first | exact Or.inl rfl | exact Or.inr rfl

/-- C10: on an active loan, paying the final installment
(`emi_number = tenure_months`) undergoes no comparison of the paid amount
with the frozen `emi_amount` or the remaining `outstanding_amount`: any
amount within the account's available balance is accepted,
`outstanding_amount` is decremented by exactly that amount, `emis_paid` is
incremented, and when this is the last unpaid installment the loan closes
with whatever outstanding amount remains. -/
theorem pay_emi_final_installment_unchecked (s : LoanPayState) (amount : ℚ)
    (hloan : s.loan.status = "active")
    (hacct : s.account.status = "active")
    (htenure : 1 ≤ s.loan.tenure_months)
    (hnotpaid : hasPaidEMI s.payments s.loan.id s.loan.tenure_months = false)
    (hpos : 0 < amount)
    (hbal : amount ≤ s.account.balance - s.account.minimum_balance.getD 0) :
    (pay_emi s s.loan.tenure_months amount).2 = none
    ∧ (pay_emi s s.loan.tenure_months amount).1.loan.outstanding_amount
        = s.loan.outstanding_amount - amount
    ∧ (pay_emi s s.loan.tenure_months amount).1.loan.emis_paid
        = s.loan.emis_paid + 1
    ∧ (s.loan.emis_paid + 1 = s.loan.tenure_months →
        (pay_emi s s.loan.tenure_months amount).1.loan.status = "closed") := by
  obtain ⟨l, a, ps, txs⟩ := s
  dsimp only at hloan hacct htenure hnotpaid hbal
  dsimp only [pay_emi]
  split_ifs with c1 c2 c3 c4 c5 c6 c7
  · exact absurd hloan c1
  · exact absurd hacct c2
  · rcases c3 with c3 | c3
    · exact absurd htenure (not_le.mpr c3)
    · exact absurd c3 (lt_irrefl _)
  · rw [hnotpaid] at c4
    simp at c4
  · exact absurd rfl c5.1
  · exact absurd c6 (not_lt.mpr hbal)
  · exact ⟨rfl, rfl, rfl, fun _ => rfl⟩
  · refine ⟨rfl, rfl, rfl, ?_⟩
    intro hclose
    exact absurd hclose c7

/-- What a successful `pay_emi` guarantees about the committed state: the
loan was `active`, ids/tenure/account-status are preserved, a `paid` row for
`(loan, emi_number)` is prepended, the loan ends `active` or `closed`, and no
`paid` row for that installment existed before. -/
theorem pay_emi_success_spec (s : LoanPayState) (k : ℕ) (amount : ℚ)
    (h : (pay_emi s k amount).2 = none) :
    s.loan.status = "active"
    ∧ (pay_emi s k amount).1.loan.id = s.loan.id
    ∧ (pay_emi s k amount).1.loan.tenure_months = s.loan.tenure_months
    ∧ (pay_emi s k amount).1.account.status = s.account.status
    ∧ (pay_emi s k amount).1.payments
        = ⟨s.loan.id, k, amount, "paid"⟩ :: s.payments
    ∧ ((pay_emi s k amount).1.loan.status = "active"
        ∨ (pay_emi s k amount).1.loan.status = "closed")
    ∧ hasPaidEMI s.payments s.loan.id k = false := by
  obtain ⟨l, a, ps, txs⟩ := s
  dsimp only [pay_emi] at h ⊢
  split_ifs at h ⊢ <;>
    first
    | exact Option.noConfusion h
    | (refine ⟨?_, rfl, rfl, rfl, rfl, ?_, ?_⟩ <;> simp_all)

/-- C5: on an active loan with a valid installment number, `pay_emi` fails
with the already-paid error and changes nothing when a `paid` row for that
`emi_number` exists; after a successful payment, paying the same installment
again (with any amount) fails; and the at-most-one-`paid`-row-per-
`(loan_id, emi_number)` invariant is preserved. -/
theorem pay_emi_idempotent (s : LoanPayState) (k : ℕ) (amount amount2 : ℚ)
    (hloan : s.loan.status = "active")
    (hacct : s.account.status = "active")
    (hk1 : 1 ≤ k) (hk2 : k ≤ s.loan.tenure_months)
    (hnodup : NoDoublePaid s.payments) :
    (hasPaidEMI s.payments s.loan.id k = true →
      pay_emi s k amount = (s, some "EMI already paid"))
    ∧ ((pay_emi s k amount).2 = none →
        (pay_emi (pay_emi s k amount).1 k amount2).2 ≠ none)
    ∧ NoDoublePaid (pay_emi s k amount).1.payments := by
  obtain ⟨l, a, ps, txs⟩ := s
  dsimp only at hloan hacct hk2 hnodup
  refine ⟨?_, ?_, ?_⟩
  · intro hpaid
    dsimp only [pay_emi]
    rw [if_neg (not_not_intro hloan), if_neg (not_not_intro hacct),
      if_neg (by push_neg; exact ⟨hk1, hk2⟩), if_pos hpaid]
  · intro hsucc
    obtain ⟨-, hid, hten, hacc2, hpay2, hstat, -⟩ :=
      pay_emi_success_spec ⟨l, a, ps, txs⟩ k amount hsucc
    set s2 := (pay_emi ⟨l, a, ps, txs⟩ k amount).1 with hs2
    clear_value s2
    obtain ⟨l2, a2, ps2, txs2⟩ := s2
    dsimp only at hid hten hacc2 hpay2 hstat
    rcases hstat with hst | hst
    · dsimp only [pay_emi]
      rw [if_neg (not_not_intro hst),
        if_neg (not_not_intro (hacc2.trans hacct)),
        if_neg (by rw [hten]; push_neg; exact ⟨hk1, hk2⟩),
        if_pos (by rw [hpay2, hid]; simp [hasPaidEMI])]
      simp
    · dsimp only [pay_emi]
      rw [if_pos (by simp [hst])]
      simp
  · dsimp only [pay_emi]
    split_ifs with c1 c2 c3 c4 c5 c6 c7
    · exact hnodup
    · exact hnodup
    · exact hnodup
    · exact hnodup
    · exact hnodup
    · exact hnodup
    all_goals
      unfold NoDoublePaid at hnodup ⊢
      rw [List.pairwise_cons]
      refine ⟨?_, hnodup⟩
      intro q hq _ hqpaid hql heq
      have hhas : hasPaidEMI ps l.id k = true := by
        unfold hasPaidEMI
        rw [List.any_eq_true]
        refine ⟨q, hq, ?_⟩
        simp [show q.loan_id = l.id from hql.symm,
          show q.emi_number = k from heq.symm, hqpaid]
      exact absurd hhas c4

/-- Fixture: an active one-month personal loan of `1000` at `12%`, frozen
`emi_amount = 999`, nothing repaid yet. -/
def fixtureLoan : Loan := ⟨5, 10, "personal", 1000, 12, 1, 999, 50, 1050, 1000, 0, "active"⟩

/-- Fixture: the active payment account for the loan fixture. -/
def fixturePayAccount : Account := ⟨1, 10, "active", 5000, 4000, some 1000, 100000⟩

/-- Fixture: the `pay_emi` session state for the loan fixture, no payments yet. -/
def fixturePay : LoanPayState := ⟨fixtureLoan, fixturePayAccount, [], []⟩

/-- C5 witness: the idempotency theorem applied to installment `1` of the
one-month loan fixture, paid with `999` twice. -/
theorem pay_emi_idempotent_witness :
    fixturePay.loan.status = "active"
    ∧ fixturePay.account.status = "active"
    ∧ 1 ≤ 1
    ∧ 1 ≤ fixturePay.loan.tenure_months
    ∧ NoDoublePaid fixturePay.payments
    ∧ ((hasPaidEMI fixturePay.payments fixturePay.loan.id 1 = true →
          pay_emi fixturePay 1 999 = (fixturePay, some "EMI already paid"))
      ∧ ((pay_emi fixturePay 1 999).2 = none →
          (pay_emi (pay_emi fixturePay 1 999).1 1 999).2 ≠ none)
      ∧ NoDoublePaid (pay_emi fixturePay 1 999).1.payments) :=
  ⟨rfl, rfl, by norm_num, by norm_num [fixturePay, fixtureLoan],
    by simp [NoDoublePaid, fixturePay],
    pay_emi_idempotent fixturePay 1 999 999 rfl rfl (by norm_num)
      (by norm_num [fixturePay, fixtureLoan]) (by simp [NoDoublePaid, fixturePay])⟩

/-- C10 witness: the final-installment theorem applied to the one-month loan
fixture with a payment of `1` — far from the frozen `emi_amount = 999` and
from the outstanding `1000` — which is accepted and closes the loan with
`999` still outstanding. -/
theorem pay_emi_final_installment_unchecked_witness :
    fixturePay.loan.status = "active"
    ∧ fixturePay.account.status = "active"
    ∧ 1 ≤ fixturePay.loan.tenure_months
    ∧ hasPaidEMI fixturePay.payments fixturePay.loan.id
        fixturePay.loan.tenure_months = false
    ∧ (0 : ℚ) < 1
    ∧ (1 : ℚ) ≤ fixturePay.account.balance
        - fixturePay.account.minimum_balance.getD 0
    ∧ ((pay_emi fixturePay fixturePay.loan.tenure_months 1).2 = none
      ∧ (pay_emi fixturePay fixturePay.loan.tenure_months 1).1.loan.outstanding_amount
          = fixturePay.loan.outstanding_amount - 1
      ∧ (pay_emi fixturePay fixturePay.loan.tenure_months 1).1.loan.emis_paid
          = fixturePay.loan.emis_paid + 1
      ∧ (fixturePay.loan.emis_paid + 1 = fixturePay.loan.tenure_months →
          (pay_emi fixturePay fixturePay.loan.tenure_months 1).1.loan.status
            = "closed"))
    ∧ fixturePay.loan.outstanding_amount - 1 ≠ 0 :=
  ⟨rfl, rfl, by norm_num [fixturePay, fixtureLoan], rfl, by norm_num,
    by norm_num [fixturePay, fixturePayAccount],
    pay_emi_final_installment_unchecked fixturePay 1 rfl rfl
      (by norm_num [fixturePay, fixtureLoan]) rfl (by norm_num)
      (by norm_num [fixturePay, fixturePayAccount]),
    by norm_num [fixturePay, fixtureLoan]⟩

/-! ## KYCService (src/app/services/kyc_service.py)

`upload_document`'s document-number format check and file-extension/size
checks validate only the request payload and touch no stored row; the
document-store behaviour modelled here is the duplicate check and the
insert.  `verify_document` mutates the document and, on approval, counts the
owner's verified documents (the just-updated row included, as the ORM
flushes the pending update before the count query) and may flip the owner's
KYC status. -/

structure KYCDocument where
  id : ℕ
  user_id : ℕ
  document_type : String
  is_verified : Bool
  rejection_reason : Option String
deriving DecidableEq, Repr

structure User where
  id : ℕ
  kyc_status : String
  is_verified : Bool
deriving DecidableEq, Repr

structure KYCState where
  documents : List KYCDocument
  users : List User
deriving DecidableEq, Repr

/-- Model of `KYCService.upload_document` (lines 23-128), document-store core. -/
def upload_document (s : KYCState) (user_id : ℕ) (document_type : String)
    (new_id : ℕ) : KYCState × Option String :=
  let valid_types := ["pan", "aadhaar", "passport", "driving_license"]
  if ¬ valid_types.contains document_type.toLower then
    (s, some "Document type not valid")
  else if s.documents.any fun d =>
      d.user_id == user_id && d.document_type == document_type.toLower then
    (s, some "Document already uploaded")
  else
    let document : KYCDocument :=
      { id := new_id, user_id := user_id,
        document_type := document_type.toLower,
        is_verified := false, rejection_reason := none }
    ({ s with documents := document :: s.documents }, none)

/-- Model of `KYCService.verify_document` (lines 143-214). -/
def verify_document (s : KYCState) (document_id : ℕ) (is_verified : Bool)
    (rejection_reason : Option String) : KYCState × Option String :=
  match s.documents.find? fun d => d.id == document_id with
  | none => (s, some "Document not found")
  | some document =>
    let updated := { document with
      is_verified := is_verified,
      rejection_reason := if is_verified then none else rejection_reason }
    let documents := s.documents.map fun d =>
      if d.id == document_id then updated else d
    if is_verified then
      let verified_docs := (documents.filter fun d =>
        d.user_id == document.user_id && d.is_verified).length
      if 2 ≤ verified_docs then
        let users := s.users.map fun u =>
          if u.id == document.user_id then
            { u with kyc_status := "verified", is_verified := true }
          else u
        (⟨documents, users⟩, none)
      else (⟨documents, s.users⟩, none)
    else (⟨documents, s.users⟩, none)

/-- The KYC status of the user row with the given id, as the routes read it. -/
def userStatus (users : List User) (uid : ℕ) : Option String :=
  (users.find? fun u => u.id == uid).map fun u => u.kyc_status

/-- The number of verified documents an owner has on file: the count query
of `verify_document` (lines 185-192). -/
def countVerified (docs : List KYCDocument) (uid : ℕ) : ℕ :=
  (docs.filter fun d => d.user_id == uid && d.is_verified).length

/-- No owner has two documents of the same type (what the duplicate check of
`upload_document` maintains). -/
def DistinctDocTypes (docs : List KYCDocument) : Prop :=
  docs.Pairwise fun d e => d.user_id = e.user_id → d.document_type ≠ e.document_type

/-- Setting the owner's row to `verified` (or leaving rows untouched) keeps
every already-`verified` user `verified`. -/
theorem userStatus_map_verify (users : List User) (owner uid : ℕ)
    (h : userStatus users uid = some "verified") :
    userStatus (users.map fun x =>
        if x.id == owner then { x with kyc_status := "verified", is_verified := true }
        else x) uid = some "verified" := by
  induction users with
  | nil => simpa [userStatus] using h
  | cons u us ih =>
    simp only [userStatus, List.map_cons, List.find?_cons] at h ⊢
    by_cases hid : (u.id == uid) = true
    · by_cases how : (u.id == owner) = true
      · simp only [hid, how, if_true] at h ⊢
        simp
      · simp only [hid, how, if_false, Bool.false_eq_true] at h ⊢
        simpa using h
    · have hidb : (u.id == uid) = false := by simpa using hid
      by_cases how : (u.id == owner) = true
      · simp only [hidb, how, if_true] at h ⊢
        exact ih h
      · simp only [hidb, how, if_false, Bool.false_eq_true] at h ⊢
        exact ih h

/-- C7: an owner's KYC status is flipped to `verified` by a document approval
only when the owner then has at least 2 verified documents; no
`verify_document` call (approval or rejection, with any arguments) ever moves
a `verified` owner back, so a third verified document leaves the status
unchanged; uploading a duplicate `(owner, document_type)` is rejected with
the state unchanged, so each owner's documents keep distinct types. -/
theorem kyc_threshold_and_monotonic (s : KYCState) (did : ℕ) (flag : Bool)
    (reason : Option String) (uid new_id : ℕ) (dtype : String) :
    (∀ d, (s.documents.find? fun x => x.id == did) = some d →
        userStatus s.users d.user_id ≠ some "verified" →
        userStatus (verify_document s did true reason).1.users d.user_id
          = some "verified" →
        2 ≤ countVerified (verify_document s did true reason).1.documents d.user_id)
    ∧ (∀ u, userStatus s.users u = some "verified" →
        userStatus (verify_document s did flag reason).1.users u = some "verified")
    ∧ ((s.documents.any fun d =>
          d.user_id == uid && d.document_type == dtype.toLower) = true →
        (["pan", "aadhaar", "passport", "driving_license"].contains
            dtype.toLower) = true →
        upload_document s uid dtype new_id = (s, some "Document already uploaded"))
    ∧ (DistinctDocTypes s.documents →
        DistinctDocTypes (upload_document s uid dtype new_id).1.documents) := by
  refine ⟨?_, ?_, ?_, ?_⟩
  · intro d hfind hnotv hv
    unfold verify_document at hv ⊢
    rw [hfind] at hv ⊢
    dsimp only at hv ⊢
    split_ifs at hv ⊢ with htt hc
    · simpa [countVerified] using hc
    · exact absurd hv hnotv
    · exact absurd rfl htt
  · intro u hu
    cases hfind : s.documents.find? fun x => x.id == did with
    | none =>
      unfold verify_document
      rw [hfind]
      exact hu
    | some d =>
      unfold verify_document
      rw [hfind]
      dsimp only
      cases flag with
      | false =>
        simp only [Bool.false_eq_true, if_false]
        exact hu
      | true =>
        simp only [if_true]
        split_ifs with hc
        · exact userStatus_map_verify s.users d.user_id u hu
        · exact hu
  · intro hdup hvalid
    simp only [upload_document]
    rw [if_neg (not_not_intro hvalid), if_pos hdup]
  · intro hdist
    simp only [upload_document]
    split_ifs with hvalid hdup
    all_goals try exact hdist
    dsimp only
    unfold DistinctDocTypes at hdist ⊢
    rw [List.pairwise_cons]
    refine ⟨?_, hdist⟩
    intro e he hue hteq
    have hpred : (fun x => x.user_id == uid && x.document_type == dtype.toLower) e
        = true := by
      simp [show e.user_id = uid from hue.symm,
        show e.document_type = dtype.toLower from hteq.symm]
    exact absurd (List.any_eq_true.mpr ⟨e, he, hpred⟩) hdup

/-- Fixture: a verified PAN document on file for owner `7`. -/
def fixtureKYCDoc : KYCDocument := ⟨1, 7, "pan", true, none⟩

/-- Fixture: owner `7`, KYC still pending. -/
def fixtureKYCUser : User := ⟨7, "pending", false⟩

/-- Fixture: the KYC store holding that document and owner. -/
def fixtureKYC : KYCState := ⟨[fixtureKYCDoc], [fixtureKYCUser]⟩

/-- C9: `verify_document` accepts a rejection (`is_verified = false`) with no
rejection reason at all: the call succeeds and the stored document ends
rejected with `rejection_reason` absent — the service never checks the
reason, and the admin route's request schema does not even carry a
`rejection_reason` field, contradicting the route's own documented rule
"Rejection reason required if rejecting". -/
theorem verify_document_rejection_needs_no_reason :
    (verify_document fixtureKYC 1 false none).2 = none
    ∧ (verify_document fixtureKYC 1 false none).1.documents
        = [⟨1, 7, "pan", false, none⟩]
    ∧ (verify_document fixtureKYC 1 false none).1.users = [fixtureKYCUser] := by
  refine ⟨?_, ?_, ?_⟩ <;> rfl
